import Mathlib

/-!
# Pod admission webhook: mutation and validation policy

A shallow embedding of `internal/webhook/v1/pod_webhook.go`.

* Go's in-place mutation of `*corev1.Pod` is modelled by state passing: `Default` returns the
  object as it is after the call together with the returned `error`.
* A Go `map[string]string` is an association list read with `GoMap.lookup` and written with
  `GoMap.set`; a nil map or nil slice is `none`.
* Calls to the logger `podlog` write nothing to the pod and are left out.
* The package-level names the file uses but does not declare (the two annotation keys,
  `IgnoredNamespaces`, `VolumeMountsTemplate`, `VolumesTemplate`) are fields of `Env`.
-/

namespace PodWebhook

/-! ## Data model -/

/-- Entry of a container's `VolumeMounts` list. The code only appends such entries and never
inspects them. -/
structure VolumeMount where
  Name : String
  MountPath : String
  ReadOnly : Bool
  deriving DecidableEq, Repr

/-- Entry of `pod.Spec.Volumes`. The code only appends such entries and never inspects them. -/
structure Volume where
  Name : String
  HostPath : String
  deriving DecidableEq, Repr

/-- Model of `corev1.Container`: the mount list (`none` is the nil slice) and two of the fields
the webhook never writes. -/
structure Container where
  Name : String
  Image : String
  VolumeMounts : Option (List VolumeMount)
  deriving DecidableEq, Repr

/-- Model of `corev1.PodSpec`: the volume list (`none` is the nil slice) and the three container
lists. -/
structure PodSpec where
  Volumes : Option (List Volume)
  InitContainers : List Container
  Containers : List Container
  EphemeralContainers : List Container
  deriving DecidableEq, Repr

/-- Model of `corev1.Pod`: name, namespace, annotation map (`none` is the nil map) and spec. -/
structure Pod where
  Name : String
  Namespace : String
  Annotations : Option (List (String × String))
  Spec : PodSpec
  deriving DecidableEq, Repr

/-- Model of a `runtime.Object`: either a (non-nil) pod, or an object of another dynamic type,
of which only the type name printed by `%T` is kept. -/
inductive Object where
  | pod (p : Pod)
  | other (typeName : String)
  deriving DecidableEq, Repr

/-- Whether the type assertion `obj.(*corev1.Pod)` succeeds. -/
def Object.isPod : Object → Bool
  | .pod _ => true
  | .other _ => false

/-- Package-level declarations used by `pod_webhook.go` and declared elsewhere, together with
the case table of the `unicode` package for runes above `unicode.MaxASCII`. -/
structure Env where
  AdmissionWebhookAnnotationStatusKey : String
  AdmissionWebhookAnnotationMutateKey : String
  IgnoredNamespaces : List String
  VolumeMountsTemplate : List VolumeMount
  VolumesTemplate : List Volume
  unicodeLower : Char → Char

/-! ## Go built-ins and library functions -/

namespace GoMap

/-- Map read `v, ok := m[k]`: `some v` when `ok`, `none` otherwise. -/
def lookup (k : String) : List (String × String) → Option String
  | [] => none
  | (k', v) :: m => if k' = k then some v else lookup k m

/-- Map write `m[k] = v`: overwrites the entry of `k` when there is one, adds one otherwise. -/
def set (k v : String) : List (String × String) → List (String × String)
  | [] => [(k, v)]
  | (k', v') :: m => if k' = k then (k, v) :: m else (k', v') :: set k v m

end GoMap

/-- Per-rune `unicode.ToLower`: `A`..`Z` are shifted to `a`..`z`, other ASCII runes are kept,
and runes above `unicode.MaxASCII` go through the case table. -/
def toLowerRune (env : Env) (c : Char) : Char :=
  if c.toNat ≤ 127 then
    (if 65 ≤ c.toNat ∧ c.toNat ≤ 90 then Char.ofNat (c.toNat + 32) else c)
  else env.unicodeLower c

/-- Go's `strings.ToLower`: every rune of the string mapped by `unicode.ToLower`. Strings are
sequences of runes, as annotation values decoded from an admission request are. -/
def ToLower (env : Env) (s : String) : String :=
  String.mk (s.data.map (toLowerRune env))

/-- Go's `slices.Contains` on strings. -/
def slicesContains (xs : List String) (x : String) : Bool :=
  xs.any (fun y => decide (y = x))

/-! ## The webhook -/

/-- `pod.GetAnnotations()` followed by the replacement of a nil map by an empty one. -/
def annotationsOrEmpty (pod : Pod) : List (String × String) :=
  match pod.Annotations with
  | none => []
  | some m => m

/-- Source `mutationRequired`: whether the pod is to be mutated. -/
def mutationRequired (env : Env) (pod : Pod) : Bool :=
  if slicesContains env.IgnoredNamespaces pod.Namespace then
    false
  else
    let annotations := annotationsOrEmpty pod
    if GoMap.lookup env.AdmissionWebhookAnnotationStatusKey annotations = some "mutated" then
      false
    else
      match GoMap.lookup env.AdmissionWebhookAnnotationMutateKey annotations with
      | some mutate => if ToLower env mutate = "false" then false else true
      | none => true

/-- Body of the loop over `pod.Spec.Containers` in `Default`: a nil mount list becomes an
empty one, then the template is appended. -/
def appendVolumeMounts (env : Env) (container : Container) : Container :=
  let volumeMounts := match container.VolumeMounts with
    | none => []
    | some ms => ms
  { container with VolumeMounts := some (volumeMounts ++ env.VolumeMountsTemplate) }

/-- Source `PodLxcfsDefaulter.Default`: the object after the call and the returned error
(`none` is Go's nil error). -/
def Default (env : Env) (obj : Object) : Object × Option String :=
  match obj with
  | .other typeName => (.other typeName, some ("expected an Pod object but got " ++ typeName))
  | .pod pod =>
    if !mutationRequired env pod then
      (.pod pod, none)
    else
      let annotations := match pod.Annotations with
        | none => []
        | some m => m
      let annotations := GoMap.set env.AdmissionWebhookAnnotationStatusKey "mutated" annotations
      let containers := pod.Spec.Containers.map (appendVolumeMounts env)
      let volumes := match pod.Spec.Volumes with
        | none => []
        | some vs => vs
      let volumes := volumes ++ env.VolumesTemplate
      (.pod { pod with
                Annotations := some annotations
                Spec := { pod.Spec with Containers := containers, Volumes := some volumes } },
       none)

/-- Model of `admission.Warnings`, a slice of strings; the nil slice is the empty list. -/
abbrev Warnings := List String

/-- Source `validate`: when the mutate annotation is present it must lower-case to `true` or
`false`. Returns the warnings and the error (`none` is Go's nil error). -/
def validate (env : Env) (pod : Pod) : Warnings × Option String :=
  let annotations := annotationsOrEmpty pod
  match GoMap.lookup env.AdmissionWebhookAnnotationMutateKey annotations with
  | some mutate =>
    if ToLower env mutate = "true" ∨ ToLower env mutate = "false" then
      ([], none)
    else
      ([], some ("invalid value for " ++ env.AdmissionWebhookAnnotationMutateKey ++
                  " annotation: " ++ mutate))
  | none => ([], none)

/-- Source `PodLxcfsValidator.ValidateCreate`. -/
def ValidateCreate (env : Env) (obj : Object) : Warnings × Option String :=
  match obj with
  | .other typeName => ([], some ("expected a Pod object but got " ++ typeName))
  | .pod pod => validate env pod

/-- Source `PodLxcfsValidator.ValidateUpdate`; the old object is not read. -/
def ValidateUpdate (env : Env) (_oldObj newObj : Object) : Warnings × Option String :=
  match newObj with
  | .other typeName =>
    ([], some ("expected a Pod object for the newObj but got " ++ typeName))
  | .pod pod => validate env pod

/-- Source `PodLxcfsValidator.ValidateDelete`. -/
def ValidateDelete (_env : Env) (obj : Object) : Warnings × Option String :=
  match obj with
  | .other typeName => ([], some ("expected a Pod object but got " ++ typeName))
  | .pod _ => ([], none)

/-! ## Sample data used to instantiate the theorems -/

/-- An environment in the shape the webhook is deployed with. -/
def sampleEnv : Env where
  AdmissionWebhookAnnotationStatusKey := "lxcfs-webhook/status"
  AdmissionWebhookAnnotationMutateKey := "lxcfs-webhook/mutate"
  IgnoredNamespaces := ["kube-system", "kube-public"]
  VolumeMountsTemplate :=
    [ { Name := "lxcfs-proc-cpuinfo", MountPath := "/proc/cpuinfo", ReadOnly := true },
      { Name := "lxcfs-proc-meminfo", MountPath := "/proc/meminfo", ReadOnly := true } ]
  VolumesTemplate :=
    [ { Name := "lxcfs-proc-cpuinfo", HostPath := "/var/lib/lxcfs/proc/cpuinfo" },
      { Name := "lxcfs-proc-meminfo", HostPath := "/var/lib/lxcfs/proc/meminfo" } ]
  unicodeLower := fun c => c

/-- A pod in namespace `default` with no annotations, one container and one mount. -/
def samplePod : Pod where
  Name := "web"
  Namespace := "default"
  Annotations := none
  Spec :=
    { Volumes := none
      InitContainers := []
      Containers :=
        [ { Name := "app", Image := "nginx",
            VolumeMounts := some [ { Name := "data", MountPath := "/data", ReadOnly := false } ] } ]
      EphemeralContainers := [] }

/-- The sample pod placed in the given namespace with the given annotation map. -/
def samplePodAt (ns : String) (m : Option (List (String × String))) : Pod :=
  { samplePod with Namespace := ns, Annotations := m }

/-! ## Observations and edits used to state the properties -/

/-- Map removal `delete(m, k)`: no entry of `k` is left, the other entries are kept. -/
def GoMap.delete (k : String) : List (String × String) → List (String × String)
  | [] => []
  | (k', v') :: m => if k' = k then GoMap.delete k m else (k', v') :: GoMap.delete k m

/-- The pod as a call of `Default` on it leaves it. -/
def podAfterDefault (env : Env) (pod : Pod) : Pod :=
  match (Default env (.pod pod)).1 with
  | .pod pod' => pod'
  | .other _ => pod

/-- An edit of the pod by its owner between two admission calls: the annotation `k` is set to
`v`, in a fresh map when the pod has none. -/
def annotate (pod : Pod) (k v : String) : Pod :=
  { pod with Annotations := some (GoMap.set k v (annotationsOrEmpty pod)) }

/-- An edit of the pod by its owner between two admission calls: the annotation `k` is removed;
a nil map stays nil. -/
def unannotate (pod : Pod) (k : String) : Pod :=
  { pod with Annotations := pod.Annotations.map (GoMap.delete k) }

/-- Source `validate` with the pod threaded through the call: the pod as the call leaves it,
then the warnings and the error. The annotation map is only read; the nil check assigns the
local variable `annotations`, not the field of the pod. -/
def validateSt (env : Env) (pod : Pod) : Pod × Warnings × Option String :=
  let annotations := pod.Annotations
  let annotations := match annotations with
    | none => []
    | some m => m
  match GoMap.lookup env.AdmissionWebhookAnnotationMutateKey annotations with
  | some mutate =>
    if ToLower env mutate = "true" ∨ ToLower env mutate = "false" then
      (pod, [], none)
    else
      (pod, [], some ("invalid value for " ++ env.AdmissionWebhookAnnotationMutateKey ++
                  " annotation: " ++ mutate))
  | none => (pod, [], none)

/-- Source `PodLxcfsValidator.ValidateCreate` with the object threaded through the call. -/
def ValidateCreateSt (env : Env) (obj : Object) : Object × Warnings × Option String :=
  match obj with
  | .other typeName => (.other typeName, [], some ("expected a Pod object but got " ++ typeName))
  | .pod pod =>
    let r := validateSt env pod
    (.pod r.1, r.2)

/-- Source `PodLxcfsValidator.ValidateUpdate` with both objects threaded through the call. -/
def ValidateUpdateSt (env : Env) (oldObj newObj : Object) :
    (Object × Object) × Warnings × Option String :=
  match newObj with
  | .other typeName =>
    ((oldObj, .other typeName), [],
      some ("expected a Pod object for the newObj but got " ++ typeName))
  | .pod pod =>
    let r := validateSt env pod
    ((oldObj, .pod r.1), r.2)

/-- Source `PodLxcfsValidator.ValidateDelete` with the object threaded through the call. -/
def ValidateDeleteSt (_env : Env) (obj : Object) : Object × Warnings × Option String :=
  match obj with
  | .other typeName => (.other typeName, [], some ("expected a Pod object but got " ++ typeName))
  | .pod pod => (.pod pod, [], none)

/-- An environment with both templates empty, otherwise as the sample one. -/
def emptyTemplateEnv : Env :=
  { sampleEnv with VolumeMountsTemplate := [], VolumesTemplate := [] }

/-- A pod in namespace `default` without annotations, containers or volumes. -/
def barePod : Pod where
  Name := "bare"
  Namespace := "default"
  Annotations := none
  Spec := { Volumes := none, InitContainers := [], Containers := [], EphemeralContainers := [] }

/-- A pod in namespace `default` with one init container, one container and one ephemeral
container, each with one mount, and no annotations. -/
def initPod : Pod where
  Name := "job"
  Namespace := "default"
  Annotations := none
  Spec :=
    { Volumes := none
      InitContainers :=
        [ { Name := "setup", Image := "busybox",
            VolumeMounts := some [ { Name := "data", MountPath := "/data", ReadOnly := false } ] } ]
      Containers :=
        [ { Name := "app", Image := "nginx",
            VolumeMounts := some [ { Name := "data", MountPath := "/data", ReadOnly := false } ] } ]
      EphemeralContainers :=
        [ { Name := "debug", Image := "busybox",
            VolumeMounts := some [ { Name := "data", MountPath := "/data", ReadOnly := false } ] } ] }

/-! ## Map and string lemmas -/

theorem GoMap.lookup_set (k v k' : String) (m : List (String × String)) :
    GoMap.lookup k' (GoMap.set k v m) = if k' = k then some v else GoMap.lookup k' m := by
  induction m with
  | nil =>
    by_cases h : k' = k
    · simp [GoMap.set, GoMap.lookup, h]
    · have h' : ¬ k = k' := fun e => h e.symm
      simp [GoMap.set, GoMap.lookup, h, h']
  | cons kv m ih =>
    obtain ⟨k0, v0⟩ := kv
    by_cases h0 : k0 = k
    · by_cases h : k' = k
      · simp [GoMap.set, GoMap.lookup, h0, h]
      · have h' : ¬ k = k' := fun e => h e.symm
        simp [GoMap.set, GoMap.lookup, h0, h, h']
    · by_cases h : k' = k
      · subst h
        simp [GoMap.set, GoMap.lookup, h0, ih]
      · by_cases h1 : k0 = k'
        · simp [GoMap.set, GoMap.lookup, h0, h, h1]
        · simp [GoMap.set, GoMap.lookup, h0, h, h1, ih]

theorem GoMap.lookup_set_self (k v : String) (m : List (String × String)) :
    GoMap.lookup k (GoMap.set k v m) = some v := by
  simp [GoMap.lookup_set]

theorem annotationsOrEmpty_eq (pod : Pod) :
    annotationsOrEmpty pod = pod.Annotations.getD [] := by
  unfold annotationsOrEmpty
  cases pod.Annotations <;> rfl

theorem slicesContains_iff (xs : List String) (x : String) :
    slicesContains xs x = true ↔ x ∈ xs := by
  simp [slicesContains]

/-! ## Eligibility and the two branches of `Default` -/

theorem mutationRequired_iff (env : Env) (pod : Pod) :
    mutationRequired env pod = true ↔
      pod.Namespace ∉ env.IgnoredNamespaces ∧
      GoMap.lookup env.AdmissionWebhookAnnotationStatusKey (pod.Annotations.getD [])
        ≠ some "mutated" ∧
      (∀ v, GoMap.lookup env.AdmissionWebhookAnnotationMutateKey (pod.Annotations.getD [])
          = some v → ToLower env v ≠ "false") := by
  unfold mutationRequired
  rw [annotationsOrEmpty_eq]
  by_cases hns : pod.Namespace ∈ env.IgnoredNamespaces
  · have hc := (slicesContains_iff env.IgnoredNamespaces pod.Namespace).2 hns
    simp [hc, hns]
  · have hc : slicesContains env.IgnoredNamespaces pod.Namespace = false := by
      cases h : slicesContains env.IgnoredNamespaces pod.Namespace
      · rfl
      · exact absurd ((slicesContains_iff _ _).1 h) hns
    by_cases hst : GoMap.lookup env.AdmissionWebhookAnnotationStatusKey
        (pod.Annotations.getD []) = some "mutated"
    · simp [hc, hns, hst]
    · cases hmu : GoMap.lookup env.AdmissionWebhookAnnotationMutateKey
          (pod.Annotations.getD []) with
      | none => simp [hc, hns, hst, hmu]
      | some mutate => simp [hc, hns, hst, hmu]

theorem Default_of_not_required (env : Env) (pod : Pod)
    (h : mutationRequired env pod = false) :
    Default env (.pod pod) = (.pod pod, none) := by
  simp [Default, h]

theorem Default_of_required (env : Env) (pod : Pod)
    (h : mutationRequired env pod = true) :
    Default env (.pod pod) =
      (.pod { pod with
                Annotations := some (GoMap.set env.AdmissionWebhookAnnotationStatusKey
                  "mutated" (pod.Annotations.getD []))
                Spec := { pod.Spec with
                  Containers := pod.Spec.Containers.map (appendVolumeMounts env)
                  Volumes := some (pod.Spec.Volumes.getD [] ++ env.VolumesTemplate) } },
       none) := by
  simp only [Default, h]
  cases pod.Annotations <;> cases pod.Spec.Volumes <;> rfl

theorem appendVolumeMounts_mounts (env : Env) (c : Container) :
    (appendVolumeMounts env c).VolumeMounts =
      some (c.VolumeMounts.getD [] ++ env.VolumeMountsTemplate) := by
  unfold appendVolumeMounts
  cases c.VolumeMounts <;> rfl

theorem mutationRequired_after_Default (env : Env) (pod : Pod)
    (m : List (String × String)) (spec : PodSpec) :
    mutationRequired env
      { pod with
          Annotations := some (GoMap.set env.AdmissionWebhookAnnotationStatusKey "mutated" m)
          Spec := spec } = false := by
  cases hm : mutationRequired env
      { pod with
          Annotations := some (GoMap.set env.AdmissionWebhookAnnotationStatusKey "mutated" m)
          Spec := spec }
  · rfl
  · exact absurd (GoMap.lookup_set_self _ _ _) ((mutationRequired_iff env _).1 hm).2.1

theorem Default_twice (env : Env) (obj : Object) :
    Default env (Default env obj).1 = Default env obj := by
  cases obj with
  | other typeName => rfl
  | pod pod =>
    cases hreq : mutationRequired env pod
    · rw [Default_of_not_required env pod hreq]
      exact Default_of_not_required env pod hreq
    · rw [Default_of_required env pod hreq]
      exact Default_of_not_required env _ (mutationRequired_after_Default env pod _ _)

theorem validate_of_absent (env : Env) (pod : Pod)
    (h : GoMap.lookup env.AdmissionWebhookAnnotationMutateKey (pod.Annotations.getD []) = none) :
    validate env pod = ([], none) := by
  simp only [validate, annotationsOrEmpty_eq, h]

theorem validate_of_legal (env : Env) (pod : Pod) (v : String)
    (h : GoMap.lookup env.AdmissionWebhookAnnotationMutateKey (pod.Annotations.getD [])
      = some v)
    (hv : ToLower env v = "true" ∨ ToLower env v = "false") :
    validate env pod = ([], none) := by
  simp only [validate, annotationsOrEmpty_eq, h, if_pos hv]

theorem validate_of_illegal (env : Env) (pod : Pod) (v : String)
    (h : GoMap.lookup env.AdmissionWebhookAnnotationMutateKey (pod.Annotations.getD [])
      = some v)
    (hv : ¬ (ToLower env v = "true" ∨ ToLower env v = "false")) :
    validate env pod =
      ([], some ("invalid value for " ++ env.AdmissionWebhookAnnotationMutateKey ++
                  " annotation: " ++ v)) := by
  simp only [validate, annotationsOrEmpty_eq, h, if_neg hv]

theorem ToLower_empty (env : Env) : ToLower env "" = "" := rfl

theorem ToLower_padded_true (env : Env) : ToLower env " true " = " true " := rfl

theorem ToLower_maybe (env : Env) : ToLower env "maybe" = "maybe" := rfl

theorem ToLower_MAYBE (env : Env) : ToLower env "MAYBE" = "maybe" := rfl

theorem ToLower_garbage (env : Env) : ToLower env "garbage" = "garbage" := rfl

/-! ## Mutation: the eligible branch -/

/-- C1: for every pod in a namespace outside `IgnoredNamespaces`, whose status annotation is not
`mutated` and whose mutate annotation is absent or does not lower-case to `false`,
`mutationRequired` is true and `Default` returns no error and leaves a pod whose annotation map
is the old one (empty if nil) with the status key set to `mutated`, whose containers each have
their old mounts followed by the whole mount template, and whose volumes are the old volumes
followed by the whole volume template; both lists grow by exactly the template length. -/
theorem Default_eligible_appends_templates (env : Env) (pod : Pod)
    (hns : pod.Namespace ∉ env.IgnoredNamespaces)
    (hst : GoMap.lookup env.AdmissionWebhookAnnotationStatusKey (pod.Annotations.getD [])
      ≠ some "mutated")
    (hmu : ∀ v, GoMap.lookup env.AdmissionWebhookAnnotationMutateKey (pod.Annotations.getD [])
      = some v → ToLower env v ≠ "false") :
    mutationRequired env pod = true ∧
    ∃ pod', Default env (.pod pod) = (.pod pod', none) ∧
      pod'.Annotations =
        some (GoMap.set env.AdmissionWebhookAnnotationStatusKey "mutated"
          (pod.Annotations.getD [])) ∧
      (∀ k, GoMap.lookup k (pod'.Annotations.getD []) =
        if k = env.AdmissionWebhookAnnotationStatusKey then some "mutated"
        else GoMap.lookup k (pod.Annotations.getD [])) ∧
      pod'.Spec.Containers.length = pod.Spec.Containers.length ∧
      (∀ (i : Nat) (c : Container), pod.Spec.Containers[i]? = some c →
        ∃ c' : Container, pod'.Spec.Containers[i]? = some c' ∧
          c'.VolumeMounts = some (c.VolumeMounts.getD [] ++ env.VolumeMountsTemplate) ∧
          (c'.VolumeMounts.getD []).length =
            (c.VolumeMounts.getD []).length + env.VolumeMountsTemplate.length) ∧
      pod'.Spec.Volumes = some (pod.Spec.Volumes.getD [] ++ env.VolumesTemplate) ∧
      (pod'.Spec.Volumes.getD []).length =
        (pod.Spec.Volumes.getD []).length + env.VolumesTemplate.length := by
  have hreq : mutationRequired env pod = true :=
    (mutationRequired_iff env pod).2 ⟨hns, hst, hmu⟩
  refine ⟨hreq, _, Default_of_required env pod hreq, rfl, ?_, ?_, ?_, rfl, ?_⟩
  · intro k
    simp only [Option.getD_some]
    exact GoMap.lookup_set _ _ _ _
  · simp
  · intro i c hc
    refine ⟨appendVolumeMounts env c, ?_, appendVolumeMounts_mounts env c, ?_⟩
    · simp [List.getElem?_map, hc]
    · simp [appendVolumeMounts_mounts]
  · simp

/-- Witness for C1: the sample pod (namespace `default`, nil annotation map). -/
theorem Default_eligible_appends_templates_witness :
    (samplePod.Namespace ∉ sampleEnv.IgnoredNamespaces ∧
      GoMap.lookup sampleEnv.AdmissionWebhookAnnotationStatusKey (samplePod.Annotations.getD [])
        ≠ some "mutated") ∧
    ∃ pod', Default sampleEnv (.pod samplePod) = (.pod pod', none) ∧
      pod'.Annotations = some [("lxcfs-webhook/status", "mutated")] ∧
      (pod'.Spec.Volumes.getD []).length = 2 :=
  ⟨⟨by decide, by decide⟩,
    let ⟨pod', h1, h2, _, _, _, _, h7⟩ :=
      (Default_eligible_appends_templates sampleEnv samplePod (by decide) (by decide)
        (by intro v h; simp [samplePod, GoMap.lookup] at h)).2
    ⟨pod', h1, h2, h7⟩⟩

/-! ## Mutation: the three skipped cases -/

/-- C2: for every pod whose annotation map holds the status key with the exact value `mutated`,
`Default` returns no error and leaves the pod (annotations, mounts, volumes and all the rest)
identical to what it was, whatever the namespace and the other annotations. -/
theorem Default_noop_of_status_mutated (env : Env) (pod : Pod)
    (h : GoMap.lookup env.AdmissionWebhookAnnotationStatusKey (pod.Annotations.getD [])
      = some "mutated") :
    mutationRequired env pod = false ∧ Default env (.pod pod) = (.pod pod, none) := by
  have hreq : mutationRequired env pod = false := by
    cases hm : mutationRequired env pod
    · rfl
    · exact absurd h ((mutationRequired_iff env pod).1 hm).2.1
  exact ⟨hreq, Default_of_not_required env pod hreq⟩

/-- Witness for C2: an already mutated pod in namespace `default` that asks for mutation. -/
theorem Default_noop_of_status_mutated_witness :
    GoMap.lookup sampleEnv.AdmissionWebhookAnnotationStatusKey
        ((samplePodAt "default"
          (some [("lxcfs-webhook/mutate", "true"), ("lxcfs-webhook/status", "mutated")])
          ).Annotations.getD []) = some "mutated" ∧
      Default sampleEnv (.pod (samplePodAt "default"
          (some [("lxcfs-webhook/mutate", "true"), ("lxcfs-webhook/status", "mutated")]))) =
        (.pod (samplePodAt "default"
          (some [("lxcfs-webhook/mutate", "true"), ("lxcfs-webhook/status", "mutated")])),
         none) :=
  ⟨by decide, (Default_noop_of_status_mutated sampleEnv _ (by decide)).2⟩

/-- C3: for every pod whose namespace is an element of `IgnoredNamespaces`, `Default` returns
no error and leaves the pod unchanged, regardless of its annotations. -/
theorem Default_noop_of_ignored_namespace (env : Env) (pod : Pod)
    (h : pod.Namespace ∈ env.IgnoredNamespaces) :
    mutationRequired env pod = false ∧ Default env (.pod pod) = (.pod pod, none) := by
  have hreq : mutationRequired env pod = false := by
    cases hm : mutationRequired env pod
    · rfl
    · exact absurd h ((mutationRequired_iff env pod).1 hm).1
  exact ⟨hreq, Default_of_not_required env pod hreq⟩

/-- Witness for C3: a pod in `kube-system` without status key and with mutate key `true`. -/
theorem Default_noop_of_ignored_namespace_witness :
    (samplePodAt "kube-system" (some [("lxcfs-webhook/mutate", "true")])).Namespace
        ∈ sampleEnv.IgnoredNamespaces ∧
      Default sampleEnv
          (.pod (samplePodAt "kube-system" (some [("lxcfs-webhook/mutate", "true")]))) =
        (.pod (samplePodAt "kube-system" (some [("lxcfs-webhook/mutate", "true")])), none) :=
  ⟨by decide, (Default_noop_of_ignored_namespace sampleEnv _ (by decide)).2⟩

/-- C4: for every pod whose mutate annotation is present with a value that lower-cases to
`false`, `Default` returns no error and leaves the pod unchanged, so that a status key that was
not `mutated` is still not `mutated`; the spellings `false`, `FALSE`, `False` and `fAlSe` all
lower-case to `false`. -/
theorem Default_noop_of_opt_out (env : Env) (pod : Pod) (v : String)
    (h : GoMap.lookup env.AdmissionWebhookAnnotationMutateKey (pod.Annotations.getD [])
      = some v)
    (hv : ToLower env v = "false") :
    mutationRequired env pod = false ∧
    Default env (.pod pod) = (.pod pod, none) ∧
    (∀ pod', (Default env (.pod pod)).1 = .pod pod' →
      GoMap.lookup env.AdmissionWebhookAnnotationStatusKey (pod.Annotations.getD [])
        ≠ some "mutated" →
      GoMap.lookup env.AdmissionWebhookAnnotationStatusKey (pod'.Annotations.getD [])
        ≠ some "mutated") ∧
    ToLower env "false" = "false" ∧ ToLower env "FALSE" = "false" ∧
    ToLower env "False" = "false" ∧ ToLower env "fAlSe" = "false" := by
  have hreq : mutationRequired env pod = false := by
    cases hm : mutationRequired env pod
    · rfl
    · exact absurd hv (((mutationRequired_iff env pod).1 hm).2.2 v h)
  have hd := Default_of_not_required env pod hreq
  refine ⟨hreq, hd, ?_, rfl, rfl, rfl, rfl⟩
  intro pod' hp hst
  rw [hd] at hp
  cases hp
  exact hst

/-- Witness for C4: a pod in namespace `default` with mutate key `FALSE`. -/
theorem Default_noop_of_opt_out_witness :
    (GoMap.lookup sampleEnv.AdmissionWebhookAnnotationMutateKey
        ((samplePodAt "default" (some [("lxcfs-webhook/mutate", "FALSE")])).Annotations.getD [])
        = some "FALSE" ∧ ToLower sampleEnv "FALSE" = "false") ∧
      Default sampleEnv
          (.pod (samplePodAt "default" (some [("lxcfs-webhook/mutate", "FALSE")]))) =
        (.pod (samplePodAt "default" (some [("lxcfs-webhook/mutate", "FALSE")])), none) :=
  ⟨⟨by decide, by decide⟩,
    (Default_noop_of_opt_out sampleEnv _ "FALSE" (by decide) (by decide)).2.1⟩

/-! ## Validation -/

/-- C5: for every pod, `validate` (and so `ValidateCreate`) returns no error if and only if the
mutate annotation is absent or its value lower-cases to exactly `true` or `false`; a nil
annotation map counts as absence, and the empty string and the padded value ` true ` are
rejected. -/
theorem validate_accepts_iff (env : Env) (pod : Pod) :
    ((validate env pod).2 = none ↔
      (GoMap.lookup env.AdmissionWebhookAnnotationMutateKey (pod.Annotations.getD []) = none ∨
        ∃ v, GoMap.lookup env.AdmissionWebhookAnnotationMutateKey (pod.Annotations.getD []) = some v ∧ (ToLower env v = "true" ∨ ToLower env v = "false"))) ∧
    ValidateCreate env (.pod pod) = validate env pod ∧
    (pod.Annotations = none → validate env pod = ([], none)) ∧
    (GoMap.lookup env.AdmissionWebhookAnnotationMutateKey (pod.Annotations.getD []) = some "" → (validate env pod).2 ≠ none) ∧
    (GoMap.lookup env.AdmissionWebhookAnnotationMutateKey (pod.Annotations.getD []) = some " true " → (validate env pod).2 ≠ none) := by
  refine ⟨⟨?_, ?_⟩, rfl, ?_, ?_, ?_⟩
  · intro herr
    cases hl : GoMap.lookup env.AdmissionWebhookAnnotationMutateKey (pod.Annotations.getD []) with
    | none => exact Or.inl rfl
    | some v =>
      refine Or.inr ⟨v, rfl, ?_⟩
      by_contra hv
      rw [validate_of_illegal env pod v hl hv] at herr
      cases herr
  · rintro (hl | ⟨v, hl, hv⟩)
    · rw [validate_of_absent env pod hl]
    · rw [validate_of_legal env pod v hl hv]
  · intro hnil
    apply validate_of_absent
    rw [hnil]
    rfl
  · intro hl
    have hv : ¬ (ToLower env "" = "true" ∨ ToLower env "" = "false") := by
      rw [ToLower_empty]
      decide
    rw [validate_of_illegal env pod "" hl hv]
    simp
  · intro hl
    have hv : ¬ (ToLower env " true " = "true" ∨ ToLower env " true " = "false") := by
      rw [ToLower_padded_true]
      decide
    rw [validate_of_illegal env pod " true " hl hv]
    simp

/-- Witness for C5: a pod whose mutate key is ` true ` with surrounding blanks is rejected. -/
theorem validate_accepts_iff_witness :
    GoMap.lookup sampleEnv.AdmissionWebhookAnnotationMutateKey
        ((samplePodAt "default" (some [("lxcfs-webhook/mutate", " true ")])).Annotations.getD [])
        = some " true " ∧
      (validate sampleEnv
        (samplePodAt "default" (some [("lxcfs-webhook/mutate", " true ")]))).2 ≠ none :=
  ⟨by decide, (validate_accepts_iff sampleEnv _).2.2.2.2 (by decide)⟩

/-- C6: whenever `validate` returns an error, the mutate annotation is present with some raw
value `v` and the message is exactly `invalid value for <mutate key> annotation: <v>`; for the
value `maybe` the message ends in `annotation: maybe`, and for `MAYBE` it carries `MAYBE`, not
the lower-cased form. -/
theorem validate_error_message (env : Env) (pod : Pod) :
    (∀ msg, (validate env pod).2 = some msg →
      ∃ v, GoMap.lookup env.AdmissionWebhookAnnotationMutateKey (pod.Annotations.getD []) = some v ∧
        msg = "invalid value for " ++ env.AdmissionWebhookAnnotationMutateKey ++
          " annotation: " ++ v) ∧
    (GoMap.lookup env.AdmissionWebhookAnnotationMutateKey (pod.Annotations.getD []) = some "maybe" →
      validate env pod =
        ([], some ("invalid value for " ++ env.AdmissionWebhookAnnotationMutateKey ++
          " annotation: " ++ "maybe"))) ∧
    (GoMap.lookup env.AdmissionWebhookAnnotationMutateKey (pod.Annotations.getD []) = some "MAYBE" →
      validate env pod =
        ([], some ("invalid value for " ++ env.AdmissionWebhookAnnotationMutateKey ++
          " annotation: " ++ "MAYBE"))) := by
  refine ⟨?_, ?_, ?_⟩
  · intro msg hmsg
    cases hl : GoMap.lookup env.AdmissionWebhookAnnotationMutateKey (pod.Annotations.getD []) with
    | none =>
      rw [validate_of_absent env pod hl] at hmsg
      cases hmsg
    | some v =>
      by_cases hv : ToLower env v = "true" ∨ ToLower env v = "false"
      · rw [validate_of_legal env pod v hl hv] at hmsg
        cases hmsg
      · rw [validate_of_illegal env pod v hl hv] at hmsg
        exact ⟨v, rfl, (Option.some.inj hmsg).symm⟩
  · intro hl
    apply validate_of_illegal env pod "maybe" hl
    rw [ToLower_maybe]
    decide
  · intro hl
    apply validate_of_illegal env pod "MAYBE" hl
    rw [ToLower_MAYBE]
    decide

/-- Witness for C6: the message for the value `maybe` under the sample keys. -/
theorem validate_error_message_witness :
    GoMap.lookup sampleEnv.AdmissionWebhookAnnotationMutateKey
        ((samplePodAt "default" (some [("lxcfs-webhook/mutate", "maybe")])).Annotations.getD [])
        = some "maybe" ∧
      validate sampleEnv (samplePodAt "default" (some [("lxcfs-webhook/mutate", "maybe")])) =
        ([], some "invalid value for lxcfs-webhook/mutate annotation: maybe") :=
  ⟨by decide, (validate_error_message sampleEnv _).2.1 (by decide)⟩

/-- C7: for every pod, `ValidateDelete` returns no warnings and no error, also for a pod whose
mutate annotation is `garbage`, which `validate` rejects. -/
theorem ValidateDelete_accepts_every_pod (env : Env) (pod : Pod) :
    ValidateDelete env (.pod pod) = ([], none) ∧
    (GoMap.lookup env.AdmissionWebhookAnnotationMutateKey (pod.Annotations.getD []) = some "garbage" →
      (validate env pod).2 ≠ none ∧ ValidateDelete env (.pod pod) = ([], none)) := by
  refine ⟨rfl, fun hl => ⟨?_, rfl⟩⟩
  have hv : ¬ (ToLower env "garbage" = "true" ∨ ToLower env "garbage" = "false") := by
    rw [ToLower_garbage]
    decide
  rw [validate_of_illegal env pod "garbage" hl hv]
  simp

/-- Witness for C7: a pod with mutate key `garbage` is rejected by `validate` and accepted by
`ValidateDelete`. -/
theorem ValidateDelete_accepts_every_pod_witness :
    GoMap.lookup sampleEnv.AdmissionWebhookAnnotationMutateKey
        ((samplePodAt "default" (some [("lxcfs-webhook/mutate", "garbage")])).Annotations.getD
          []) = some "garbage" ∧
      (validate sampleEnv
        (samplePodAt "default" (some [("lxcfs-webhook/mutate", "garbage")]))).2 ≠ none ∧
      ValidateDelete sampleEnv
        (.pod (samplePodAt "default" (some [("lxcfs-webhook/mutate", "garbage")]))) =
        ([], none) :=
  ⟨by decide, (ValidateDelete_accepts_every_pod sampleEnv _).2 (by decide)⟩

/-! ## Idempotence, eligibility and the error of `Default` -/

/-- C8: `Default` is idempotent: for every object, applying `Default` to the object left by a
first call returns the same object and the same error as the first call. For a pod in a
namespace outside `IgnoredNamespaces` with a nil annotation map, the first call sets the
status key and appends the templates, and the second call leaves that pod as it is. -/
theorem Default_idempotent (env : Env) (obj : Object) :
    Default env (Default env obj).1 = Default env obj ∧
    (∀ pod, obj = .pod pod → pod.Namespace ∉ env.IgnoredNamespaces →
      pod.Annotations = none →
      ∃ pod', Default env obj = (.pod pod', none) ∧
        pod'.Annotations = some [(env.AdmissionWebhookAnnotationStatusKey, "mutated")] ∧
        pod'.Spec.Containers = pod.Spec.Containers.map (appendVolumeMounts env) ∧
        pod'.Spec.Volumes = some (pod.Spec.Volumes.getD [] ++ env.VolumesTemplate) ∧
        Default env (.pod pod') = (.pod pod', none)) := by
  refine ⟨Default_twice env obj, ?_⟩
  intro pod hobj hns hnil
  subst hobj
  have hreq : mutationRequired env pod = true := by
    refine (mutationRequired_iff env pod).2 ⟨hns, ?_, ?_⟩
    · rw [hnil]
      simp [GoMap.lookup]
    · intro v hv
      rw [hnil] at hv
      simp [GoMap.lookup] at hv
  have h2 := Default_twice env (.pod pod)
  rw [Default_of_required env pod hreq] at h2
  refine ⟨_, Default_of_required env pod hreq, ?_, rfl, rfl, h2⟩
  rw [hnil]
  rfl

/-- Witness for C8: the sample pod (namespace `default`, no annotations, one container with one
mount); after the first call the container has its mount and the two template mounts, and the
second call changes nothing. -/
theorem Default_idempotent_witness :
    (samplePod.Namespace ∉ sampleEnv.IgnoredNamespaces ∧ samplePod.Annotations = none) ∧
    ∃ pod', Default sampleEnv (.pod samplePod) = (.pod pod', none) ∧
      pod'.Spec.Containers = samplePod.Spec.Containers.map (appendVolumeMounts sampleEnv) ∧
      Default sampleEnv (.pod pod') = (.pod pod', none) :=
  ⟨⟨by decide, rfl⟩,
    let ⟨pod', h1, _, h3, _, h5⟩ :=
      (Default_idempotent sampleEnv (.pod samplePod)).2 samplePod rfl (by decide) rfl
    ⟨pod', h1, h3, h5⟩⟩

/-- C9: `mutationRequired` is true if and only if the namespace is not an element of
`IgnoredNamespaces`, the status annotation is absent or differs from `mutated`, and the mutate
annotation is absent or its lower-cased value differs from `false`; a nil annotation map gives
the same answer as an empty one. -/
theorem mutationRequired_true_iff (env : Env) (pod : Pod) :
    (mutationRequired env pod = true ↔
      pod.Namespace ∉ env.IgnoredNamespaces ∧
      (GoMap.lookup env.AdmissionWebhookAnnotationStatusKey (pod.Annotations.getD []) = none ∨
        ∃ s, GoMap.lookup env.AdmissionWebhookAnnotationStatusKey (pod.Annotations.getD [])
          = some s ∧ s ≠ "mutated") ∧
      (GoMap.lookup env.AdmissionWebhookAnnotationMutateKey (pod.Annotations.getD []) = none ∨ ∃ v, GoMap.lookup env.AdmissionWebhookAnnotationMutateKey (pod.Annotations.getD []) = some v ∧ ToLower env v ≠ "false")) ∧
    mutationRequired env { pod with Annotations := none } =
      mutationRequired env { pod with Annotations := some [] } := by
  refine ⟨?_, rfl⟩
  rw [mutationRequired_iff]
  refine and_congr_right (fun _ => and_congr ?_ ?_)
  · cases GoMap.lookup env.AdmissionWebhookAnnotationStatusKey (pod.Annotations.getD []) with
    | none => simp
    | some s => simp
  · cases GoMap.lookup env.AdmissionWebhookAnnotationMutateKey (pod.Annotations.getD []) with
    | none => simp
    | some v => simp

/-- C10: `Default` returns an error if and only if the object is not a pod; in that case the
object is left as it was and the error is the type-mismatch message; for every pod, eligible or
not, `Default` returns no error. -/
theorem Default_error_iff_not_pod (env : Env) (obj : Object) :
    ((Default env obj).2 ≠ none ↔ obj.isPod = false) ∧
    (obj.isPod = false → (Default env obj).1 = obj) ∧
    (∀ typeName, obj = .other typeName →
      Default env obj = (obj, some ("expected an Pod object but got " ++ typeName))) ∧
    (∀ pod, obj = .pod pod → (Default env obj).2 = none) := by
  cases obj with
  | other typeName =>
    refine ⟨?_, fun _ => rfl, ?_, ?_⟩
    · simp [Default, Object.isPod]
    · intro t ht
      cases ht
      rfl
    · intro pod hp
      cases hp
  | pod pod =>
    have hnone : (Default env (.pod pod)).2 = none := by
      cases hreq : mutationRequired env pod
      · rw [Default_of_not_required env pod hreq]
      · rw [Default_of_required env pod hreq]
    refine ⟨?_, ?_, ?_, fun _ _ => hnone⟩
    · simp [hnone, Object.isPod]
    · intro h
      simp [Object.isPod] at h
    · intro t ht
      cases ht

/-- Witness for C10: an object of another type is returned as it was, with an error. -/
theorem Default_error_iff_not_pod_witness :
    (Object.other "*v1.Service").isPod = false ∧
      Default sampleEnv (.other "*v1.Service") =
        (.other "*v1.Service", some "expected an Pod object but got *v1.Service") :=
  ⟨rfl, (Default_error_iff_not_pod sampleEnv (.other "*v1.Service")).2.2.1 _ rfl⟩

/-! ## What `Default` leaves alone -/

theorem GoMap.lookup_delete (k k' : String) (m : List (String × String)) :
    GoMap.lookup k' (GoMap.delete k m) = if k' = k then none else GoMap.lookup k' m := by
  induction m with
  | nil => simp [GoMap.delete, GoMap.lookup]
  | cons kv m ih =>
    obtain ⟨k0, v0⟩ := kv
    by_cases h0 : k0 = k
    · subst h0
      by_cases h : k' = k0
      · subst h
        simp [GoMap.delete, ih]
      · have h' : ¬ k0 = k' := fun e => h e.symm
        simp [GoMap.delete, GoMap.lookup, h, h', ih]
    · by_cases h : k' = k
      · subst h
        simp [GoMap.delete, GoMap.lookup, h0, ih]
      · by_cases h1 : k0 = k'
        · simp [GoMap.delete, GoMap.lookup, h0, h, h1]
        · simp [GoMap.delete, GoMap.lookup, h0, h, h1, ih]

theorem Default_pod_eq (env : Env) (pod : Pod) :
    Default env (.pod pod) = (.pod (podAfterDefault env pod), none) := by
  unfold podAfterDefault
  cases hreq : mutationRequired env pod
  · rw [Default_of_not_required env pod hreq]
  · rw [Default_of_required env pod hreq]

theorem podAfterDefault_of_not_required (env : Env) (pod : Pod)
    (h : mutationRequired env pod = false) : podAfterDefault env pod = pod := by
  unfold podAfterDefault
  rw [Default_of_not_required env pod h]

theorem podAfterDefault_of_required (env : Env) (pod : Pod)
    (h : mutationRequired env pod = true) :
    podAfterDefault env pod =
      { pod with
          Annotations := some (GoMap.set env.AdmissionWebhookAnnotationStatusKey
            "mutated" (pod.Annotations.getD []))
          Spec := { pod.Spec with
            Containers := pod.Spec.Containers.map (appendVolumeMounts env)
            Volumes := some (pod.Spec.Volumes.getD [] ++ env.VolumesTemplate) } } := by
  unfold podAfterDefault
  rw [Default_of_required env pod h]

theorem lookup_podAfterDefault (env : Env) (pod : Pod) (k : String)
    (hk : k ≠ env.AdmissionWebhookAnnotationStatusKey) :
    GoMap.lookup k ((podAfterDefault env pod).Annotations.getD []) =
      GoMap.lookup k (pod.Annotations.getD []) := by
  cases hreq : mutationRequired env pod
  · rw [podAfterDefault_of_not_required env pod hreq]
  · rw [podAfterDefault_of_required env pod hreq]
    simp [GoMap.lookup_set, hk]

/-- C11: for every pod, `Default` returns no error and the pod it leaves has the same name and
namespace, the same init and ephemeral containers, as many containers in the same order with the
same name and image, every annotation other than the status key (the mutate key too, when it is
another key) with its old value, and the old mounts and old volumes as the leading part of the
new lists. -/
theorem Default_frame (env : Env) (pod : Pod) :
    Default env (.pod pod) = (.pod (podAfterDefault env pod), none) ∧
    (podAfterDefault env pod).Name = pod.Name ∧
    (podAfterDefault env pod).Namespace = pod.Namespace ∧
    (podAfterDefault env pod).Spec.InitContainers = pod.Spec.InitContainers ∧
    (podAfterDefault env pod).Spec.EphemeralContainers = pod.Spec.EphemeralContainers ∧
    (podAfterDefault env pod).Spec.Containers.length = pod.Spec.Containers.length ∧
    (∀ (i : Nat) (c : Container), pod.Spec.Containers[i]? = some c →
      ∃ c' : Container, (podAfterDefault env pod).Spec.Containers[i]? = some c' ∧
        c'.Name = c.Name ∧ c'.Image = c.Image ∧
        (c'.VolumeMounts.getD []).take (c.VolumeMounts.getD []).length
          = c.VolumeMounts.getD []) ∧
    (∀ k, k ≠ env.AdmissionWebhookAnnotationStatusKey →
      GoMap.lookup k ((podAfterDefault env pod).Annotations.getD []) =
        GoMap.lookup k (pod.Annotations.getD [])) ∧
    (env.AdmissionWebhookAnnotationMutateKey ≠ env.AdmissionWebhookAnnotationStatusKey →
      GoMap.lookup env.AdmissionWebhookAnnotationMutateKey
          ((podAfterDefault env pod).Annotations.getD []) =
        GoMap.lookup env.AdmissionWebhookAnnotationMutateKey (pod.Annotations.getD [])) ∧
    ((podAfterDefault env pod).Spec.Volumes.getD []).take (pod.Spec.Volumes.getD []).length
      = pod.Spec.Volumes.getD [] := by
  refine ⟨Default_pod_eq env pod, ?_, ?_, ?_, ?_, ?_, ?_,
    fun k hk => lookup_podAfterDefault env pod k hk,
    fun hk => lookup_podAfterDefault env pod _ hk, ?_⟩
  all_goals cases hreq : mutationRequired env pod
  all_goals
    first
    | rw [podAfterDefault_of_not_required env pod hreq]
    | rw [podAfterDefault_of_required env pod hreq]
  case refine_6.false =>
    intro i c hc
    exact ⟨c, hc, rfl, rfl, by simp⟩
  case refine_6.true =>
    intro i c hc
    refine ⟨appendVolumeMounts env c, ?_, rfl, rfl, ?_⟩
    · simp [List.getElem?_map, hc]
    · simp [appendVolumeMounts_mounts]
  all_goals simp

/-- Witness for C11: on the sample pod the mutate key, absent before, is absent after. -/
theorem Default_frame_witness :
    sampleEnv.AdmissionWebhookAnnotationMutateKey ≠ sampleEnv.AdmissionWebhookAnnotationStatusKey ∧
      GoMap.lookup sampleEnv.AdmissionWebhookAnnotationMutateKey
          ((podAfterDefault sampleEnv samplePod).Annotations.getD []) =
        GoMap.lookup sampleEnv.AdmissionWebhookAnnotationMutateKey
          (samplePod.Annotations.getD []) :=
  ⟨by decide, (Default_frame sampleEnv samplePod).2.2.2.2.2.2.2.2.1 (by decide)⟩

/-- C12: for every pod `newPod` and every old object, `ValidateUpdate` on the old object and
`newPod` returns what `ValidateCreate` returns on `newPod`, namely the result of `validate`. -/
theorem ValidateUpdate_eq_ValidateCreate (env : Env) (oldObj : Object) (newPod : Pod) :
    ValidateUpdate env oldObj (.pod newPod) = ValidateCreate env (.pod newPod) ∧
    ValidateUpdate env oldObj (.pod newPod) = validate env newPod := by
  exact ⟨rfl, rfl⟩

/-! ## The marker is terminal; rejected values do not opt out -/

theorem annotations_annotate (pod : Pod) (k v : String) :
    (annotate pod k v).Annotations.getD [] = GoMap.set k v (pod.Annotations.getD []) := by
  simp [annotate, annotationsOrEmpty_eq]

theorem annotations_unannotate (pod : Pod) (k : String) :
    (unannotate pod k).Annotations.getD [] = GoMap.delete k (pod.Annotations.getD []) := by
  unfold unannotate
  cases pod.Annotations <;> simp [GoMap.delete]

theorem mutationRequired_of_status_mutated (env : Env) (pod : Pod)
    (h : GoMap.lookup env.AdmissionWebhookAnnotationStatusKey (pod.Annotations.getD []) = some "mutated") :
    mutationRequired env pod = false := by
  cases hm : mutationRequired env pod
  · rfl
  · exact absurd h ((mutationRequired_iff env pod).1 hm).2.1

theorem status_after_required (env : Env) (pod : Pod)
    (h : mutationRequired env pod = true) :
    GoMap.lookup env.AdmissionWebhookAnnotationStatusKey ((podAfterDefault env pod).Annotations.getD []) = some "mutated" := by
  rw [podAfterDefault_of_required env pod h]
  exact GoMap.lookup_set_self _ _ _

theorem containers_after_required (env : Env) (pod : Pod)
    (h : mutationRequired env pod = true) (i : Nat) (c : Container)
    (hc : pod.Spec.Containers[i]? = some c) :
    ∃ c' : Container, (podAfterDefault env pod).Spec.Containers[i]? = some c' ∧
      c'.VolumeMounts = some (c.VolumeMounts.getD [] ++ env.VolumeMountsTemplate) := by
  rw [podAfterDefault_of_required env pod h]
  refine ⟨appendVolumeMounts env c, ?_, appendVolumeMounts_mounts env c⟩
  simp [List.getElem?_map, hc]

theorem volumes_after_required (env : Env) (pod : Pod)
    (h : mutationRequired env pod = true) :
    (podAfterDefault env pod).Spec.Volumes =
      some (pod.Spec.Volumes.getD [] ++ env.VolumesTemplate) := by
  rw [podAfterDefault_of_required env pod h]

/-- C13: for every eligible pod, the pod left by `Default` carries status key `mutated`; when
the mutate key is another key than the status key, setting the mutate key of that pod to any
value, or removing it, gives a pod that is not eligible and that `Default` leaves unchanged;
and `Default` leaves a status key that is `mutated` at `mutated` on every pod. -/
theorem mutated_is_terminal (env : Env) (pod : Pod)
    (hreq : mutationRequired env pod = true)
    (hkeys : env.AdmissionWebhookAnnotationMutateKey ≠ env.AdmissionWebhookAnnotationStatusKey) :
    Default env (.pod pod) = (.pod (podAfterDefault env pod), none) ∧
    GoMap.lookup env.AdmissionWebhookAnnotationStatusKey ((podAfterDefault env pod).Annotations.getD []) = some "mutated" ∧
    (∀ v, mutationRequired env (annotate (podAfterDefault env pod) env.AdmissionWebhookAnnotationMutateKey v) = false ∧
      Default env (.pod (annotate (podAfterDefault env pod) env.AdmissionWebhookAnnotationMutateKey v)) =
        (.pod (annotate (podAfterDefault env pod) env.AdmissionWebhookAnnotationMutateKey v), none)) ∧
    (mutationRequired env (unannotate (podAfterDefault env pod) env.AdmissionWebhookAnnotationMutateKey) = false ∧
      Default env (.pod (unannotate (podAfterDefault env pod) env.AdmissionWebhookAnnotationMutateKey)) =
        (.pod (unannotate (podAfterDefault env pod) env.AdmissionWebhookAnnotationMutateKey), none)) ∧
    (∀ q : Pod, GoMap.lookup env.AdmissionWebhookAnnotationStatusKey (q.Annotations.getD []) = some "mutated" →
      GoMap.lookup env.AdmissionWebhookAnnotationStatusKey ((podAfterDefault env q).Annotations.getD []) = some "mutated") := by
  have hst := status_after_required env pod hreq
  have hkeys' : env.AdmissionWebhookAnnotationStatusKey ≠ env.AdmissionWebhookAnnotationMutateKey := fun e => hkeys e.symm
  refine ⟨Default_pod_eq env pod, hst, ?_, ?_, ?_⟩
  · intro v
    have h : mutationRequired env (annotate (podAfterDefault env pod) env.AdmissionWebhookAnnotationMutateKey v) = false := by
      apply mutationRequired_of_status_mutated
      rw [annotations_annotate, GoMap.lookup_set, if_neg hkeys']
      exact hst
    exact ⟨h, Default_of_not_required env _ h⟩
  · have h : mutationRequired env (unannotate (podAfterDefault env pod) env.AdmissionWebhookAnnotationMutateKey) = false := by
      apply mutationRequired_of_status_mutated
      rw [annotations_unannotate, GoMap.lookup_delete, if_neg hkeys']
      exact hst
    exact ⟨h, Default_of_not_required env _ h⟩
  · intro q hq
    rw [podAfterDefault_of_not_required env q (mutationRequired_of_status_mutated env q hq)]
    exact hq

/-- Witness for C13: the sample pod, mutated, then given the mutate key `true`. -/
theorem mutated_is_terminal_witness :
    (mutationRequired sampleEnv samplePod = true ∧
      sampleEnv.AdmissionWebhookAnnotationMutateKey ≠
        sampleEnv.AdmissionWebhookAnnotationStatusKey) ∧
    mutationRequired sampleEnv
      (annotate (podAfterDefault sampleEnv samplePod)
        sampleEnv.AdmissionWebhookAnnotationMutateKey "true") = false :=
  ⟨⟨by decide, by decide⟩,
    ((mutated_is_terminal sampleEnv samplePod (by decide) (by decide)).2.2.1 "true").1⟩

/-- C14: for every pod in a namespace outside `IgnoredNamespaces`, without status key `mutated`,
whose mutate value lower-cases to neither `true` nor `false`, `validate` returns the
invalid-value error and yet `mutationRequired` is true and `Default` sets the status key and
appends the template mounts to every container and the template volumes to the pod; `maybe`,
`no`, `0` and the empty string are such values. -/
theorem rejected_value_does_not_suppress (env : Env) (pod : Pod) (v : String)
    (hns : pod.Namespace ∉ env.IgnoredNamespaces)
    (hst : GoMap.lookup env.AdmissionWebhookAnnotationStatusKey (pod.Annotations.getD []) ≠ some "mutated")
    (hl : GoMap.lookup env.AdmissionWebhookAnnotationMutateKey (pod.Annotations.getD []) = some v)
    (htrue : ToLower env v ≠ "true") (hfalse : ToLower env v ≠ "false") :
    (validate env pod).2 =
      some ("invalid value for " ++ env.AdmissionWebhookAnnotationMutateKey ++ " annotation: " ++ v) ∧
    mutationRequired env pod = true ∧
    Default env (.pod pod) = (.pod (podAfterDefault env pod), none) ∧
    GoMap.lookup env.AdmissionWebhookAnnotationStatusKey ((podAfterDefault env pod).Annotations.getD []) = some "mutated" ∧
    (∀ (i : Nat) (c : Container), pod.Spec.Containers[i]? = some c →
      ∃ c' : Container, (podAfterDefault env pod).Spec.Containers[i]? = some c' ∧
        c'.VolumeMounts = some (c.VolumeMounts.getD [] ++ env.VolumeMountsTemplate)) ∧
    (podAfterDefault env pod).Spec.Volumes =
      some (pod.Spec.Volumes.getD [] ++ env.VolumesTemplate) ∧
    (ToLower env "maybe" ≠ "true" ∧ ToLower env "maybe" ≠ "false") ∧
    (ToLower env "no" ≠ "true" ∧ ToLower env "no" ≠ "false") ∧
    (ToLower env "0" ≠ "true" ∧ ToLower env "0" ≠ "false") ∧
    (ToLower env "" ≠ "true" ∧ ToLower env "" ≠ "false") := by
  have hreq : mutationRequired env pod = true := by
    refine (mutationRequired_iff env pod).2 ⟨hns, hst, ?_⟩
    intro w hw
    rw [hl] at hw
    cases hw
    exact hfalse
  have hbad : ¬ (ToLower env v = "true" ∨ ToLower env v = "false") := by
    rintro (h | h)
    · exact htrue h
    · exact hfalse h
  have e1 : ToLower env "maybe" = "maybe" := rfl
  have e2 : ToLower env "no" = "no" := rfl
  have e3 : ToLower env "0" = "0" := rfl
  have e4 : ToLower env "" = "" := rfl
  refine ⟨?_, hreq, Default_pod_eq env pod, status_after_required env pod hreq,
    containers_after_required env pod hreq, volumes_after_required env pod hreq, ?_, ?_, ?_, ?_⟩
  · rw [validate_of_illegal env pod v hl hbad]
  · rw [e1]; decide
  · rw [e2]; decide
  · rw [e3]; decide
  · rw [e4]; decide

/-- Witness for C14: a pod in namespace `default` whose mutate key is `maybe`. -/
theorem rejected_value_does_not_suppress_witness :
    GoMap.lookup sampleEnv.AdmissionWebhookAnnotationMutateKey
        ((samplePodAt "default" (some [("lxcfs-webhook/mutate", "maybe")])).Annotations.getD [])
        = some "maybe" ∧
    (validate sampleEnv
        (samplePodAt "default" (some [("lxcfs-webhook/mutate", "maybe")]))).2 =
      some "invalid value for lxcfs-webhook/mutate annotation: maybe" ∧
    mutationRequired sampleEnv
        (samplePodAt "default" (some [("lxcfs-webhook/mutate", "maybe")])) = true :=
  ⟨by decide,
    (rejected_value_does_not_suppress sampleEnv _ "maybe" (by decide) (by decide) (by decide)
      (by decide) (by decide)).1,
    (rejected_value_does_not_suppress sampleEnv _ "maybe" (by decide) (by decide) (by decide)
      (by decide) (by decide)).2.1⟩

/-! ## Explicit `true`, other status values, validators, change indicator, other containers -/

theorem annotations_after_required (env : Env) (pod : Pod)
    (h : mutationRequired env pod = true) :
    (podAfterDefault env pod).Annotations.getD [] =
      GoMap.set env.AdmissionWebhookAnnotationStatusKey "mutated" (pod.Annotations.getD []) := by
  rw [podAfterDefault_of_required env pod h]
  rfl

theorem spec_after_required (env : Env) (pod : Pod)
    (h : mutationRequired env pod = true) :
    (podAfterDefault env pod).Spec =
      { pod.Spec with
        Containers := pod.Spec.Containers.map (appendVolumeMounts env)
        Volumes := some (pod.Spec.Volumes.getD [] ++ env.VolumesTemplate) } := by
  rw [podAfterDefault_of_required env pod h]

theorem mutationRequired_annotate_true (env : Env) (pod : Pod) (t : String)
    (ht : ToLower env t = "true") :
    mutationRequired env (annotate pod env.AdmissionWebhookAnnotationMutateKey t) = mutationRequired env (unannotate pod env.AdmissionWebhookAnnotationMutateKey) := by
  have htm : t ≠ "mutated" := by
    intro e
    rw [e] at ht
    have e1 : ToLower env "mutated" = "mutated" := rfl
    rw [e1] at ht
    exact absurd ht (by decide)
  have hns1 : (annotate pod env.AdmissionWebhookAnnotationMutateKey t).Namespace = pod.Namespace := rfl
  have hns2 : (unannotate pod env.AdmissionWebhookAnnotationMutateKey).Namespace = pod.Namespace := rfl
  rw [Bool.eq_iff_iff, mutationRequired_iff, mutationRequired_iff, annotations_annotate,
    annotations_unannotate, hns1, hns2]
  refine and_congr_right (fun _ => and_congr ?_ ?_)
  · rw [GoMap.lookup_set, GoMap.lookup_delete]
    by_cases hk : env.AdmissionWebhookAnnotationStatusKey = env.AdmissionWebhookAnnotationMutateKey
    · simp [hk, htm]
    · simp [hk]
  · constructor
    · intro _ v hv
      rw [GoMap.lookup_delete] at hv
      simp at hv
    · intro _ v hv
      rw [GoMap.lookup_set_self] at hv
      cases hv
      rw [ht]
      decide

/-- C15: for every pod and every value `t` that lower-cases to `true`, `mutationRequired` gives
the same answer for the pod with the mutate key set to `t` and for the pod with the mutate key
removed; when the mutate key is another key than the status key, the two pods left by
`Default` have the same name, namespace and spec and the same value at every annotation key
other than the mutate key, which reads `t` in the first and is absent in the second. -/
theorem explicit_true_same_as_absent (env : Env) (pod : Pod) (t : String)
    (ht : ToLower env t = "true") :
    mutationRequired env (annotate pod env.AdmissionWebhookAnnotationMutateKey t) = mutationRequired env (unannotate pod env.AdmissionWebhookAnnotationMutateKey) ∧
    Default env (.pod (annotate pod env.AdmissionWebhookAnnotationMutateKey t)) =
      (.pod (podAfterDefault env (annotate pod env.AdmissionWebhookAnnotationMutateKey t)), none) ∧
    Default env (.pod (unannotate pod env.AdmissionWebhookAnnotationMutateKey)) =
      (.pod (podAfterDefault env (unannotate pod env.AdmissionWebhookAnnotationMutateKey)), none) ∧
    (podAfterDefault env (annotate pod env.AdmissionWebhookAnnotationMutateKey t)).Name =
      (podAfterDefault env (unannotate pod env.AdmissionWebhookAnnotationMutateKey)).Name ∧
    (podAfterDefault env (annotate pod env.AdmissionWebhookAnnotationMutateKey t)).Namespace =
      (podAfterDefault env (unannotate pod env.AdmissionWebhookAnnotationMutateKey)).Namespace ∧
    (podAfterDefault env (annotate pod env.AdmissionWebhookAnnotationMutateKey t)).Spec =
      (podAfterDefault env (unannotate pod env.AdmissionWebhookAnnotationMutateKey)).Spec ∧
    (env.AdmissionWebhookAnnotationMutateKey ≠ env.AdmissionWebhookAnnotationStatusKey →
      (∀ k, k ≠ env.AdmissionWebhookAnnotationMutateKey →
        GoMap.lookup k ((podAfterDefault env (annotate pod env.AdmissionWebhookAnnotationMutateKey t)).Annotations.getD []) =
          GoMap.lookup k ((podAfterDefault env (unannotate pod env.AdmissionWebhookAnnotationMutateKey)).Annotations.getD [])) ∧
      GoMap.lookup env.AdmissionWebhookAnnotationMutateKey ((podAfterDefault env (annotate pod env.AdmissionWebhookAnnotationMutateKey t)).Annotations.getD [])
        = some t ∧
      GoMap.lookup env.AdmissionWebhookAnnotationMutateKey ((podAfterDefault env (unannotate pod env.AdmissionWebhookAnnotationMutateKey)).Annotations.getD [])
        = none) := by
  have hsame := mutationRequired_annotate_true env pod t ht
  refine ⟨hsame, Default_pod_eq env _, Default_pod_eq env _, ?_⟩
  cases h1 : mutationRequired env (annotate pod env.AdmissionWebhookAnnotationMutateKey t)
  · have h2 : mutationRequired env (unannotate pod env.AdmissionWebhookAnnotationMutateKey) = false := by rw [← hsame, h1]
    rw [podAfterDefault_of_not_required env _ h1, podAfterDefault_of_not_required env _ h2]
    refine ⟨rfl, rfl, rfl, fun hkeys => ⟨?_, ?_, ?_⟩⟩
    · intro k hk
      rw [annotations_annotate, annotations_unannotate, GoMap.lookup_set, GoMap.lookup_delete]
      simp [hk]
    · rw [annotations_annotate, GoMap.lookup_set_self]
    · rw [annotations_unannotate, GoMap.lookup_delete]
      simp
  · have h2 : mutationRequired env (unannotate pod env.AdmissionWebhookAnnotationMutateKey) = true := by rw [← hsame, h1]
    refine ⟨?_, ?_, ?_, fun hkeys => ⟨?_, ?_, ?_⟩⟩
    · rw [podAfterDefault_of_required env _ h1, podAfterDefault_of_required env _ h2]
      rfl
    · rw [podAfterDefault_of_required env _ h1, podAfterDefault_of_required env _ h2]
      rfl
    · rw [spec_after_required env _ h1, spec_after_required env _ h2]
      rfl
    · intro k hk
      rw [annotations_after_required env _ h1, annotations_after_required env _ h2,
        annotations_annotate, annotations_unannotate]
      simp [GoMap.lookup_set, GoMap.lookup_delete, hk]
    · rw [annotations_after_required env _ h1, annotations_annotate]
      simp [GoMap.lookup_set, hkeys]
    · rw [annotations_after_required env _ h2, annotations_unannotate]
      simp [GoMap.lookup_set, GoMap.lookup_delete, hkeys]

/-- Witness for C15: the sample pod with mutate key `True` and with the mutate key removed. -/
theorem explicit_true_same_as_absent_witness :
    ToLower sampleEnv "True" = "true" ∧
    mutationRequired sampleEnv
        (annotate samplePod sampleEnv.AdmissionWebhookAnnotationMutateKey "True") =
      mutationRequired sampleEnv
        (unannotate samplePod sampleEnv.AdmissionWebhookAnnotationMutateKey) ∧
    (podAfterDefault sampleEnv
        (annotate samplePod sampleEnv.AdmissionWebhookAnnotationMutateKey "True")).Spec =
      (podAfterDefault sampleEnv
        (unannotate samplePod sampleEnv.AdmissionWebhookAnnotationMutateKey)).Spec :=
  ⟨by decide, (explicit_true_same_as_absent sampleEnv samplePod "True" (by decide)).1,
    (explicit_true_same_as_absent sampleEnv samplePod "True" (by decide)).2.2.2.2.2.1⟩

/-- C16: for every pod in a namespace outside `IgnoredNamespaces`, with no opt-out, whose status
key is present with a value other than the exact string `mutated`, `mutationRequired` is true
and `Default` appends the templates and leaves the status key at `mutated`; `Mutated`,
`MUTATED`, the empty string and `pending` are such values, although `MUTATED` lower-cases to
`mutated`. -/
theorem other_status_value_is_not_marker (env : Env) (pod : Pod) (s : String)
    (hns : pod.Namespace ∉ env.IgnoredNamespaces)
    (hs : GoMap.lookup env.AdmissionWebhookAnnotationStatusKey (pod.Annotations.getD []) = some s)
    (hne : s ≠ "mutated")
    (hmu : ∀ v, GoMap.lookup env.AdmissionWebhookAnnotationMutateKey (pod.Annotations.getD []) = some v →
      ToLower env v ≠ "false") :
    mutationRequired env pod = true ∧
    Default env (.pod pod) = (.pod (podAfterDefault env pod), none) ∧
    GoMap.lookup env.AdmissionWebhookAnnotationStatusKey ((podAfterDefault env pod).Annotations.getD []) = some "mutated" ∧
    (∀ (i : Nat) (c : Container), pod.Spec.Containers[i]? = some c →
      ∃ c' : Container, (podAfterDefault env pod).Spec.Containers[i]? = some c' ∧
        c'.VolumeMounts = some (c.VolumeMounts.getD [] ++ env.VolumeMountsTemplate)) ∧
    (podAfterDefault env pod).Spec.Volumes =
      some (pod.Spec.Volumes.getD [] ++ env.VolumesTemplate) ∧
    ("Mutated" ≠ "mutated" ∧ "MUTATED" ≠ "mutated" ∧ "" ≠ "mutated" ∧ "pending" ≠ "mutated") ∧
    ToLower env "MUTATED" = "mutated" := by
  have hreq : mutationRequired env pod = true := by
    refine (mutationRequired_iff env pod).2 ⟨hns, ?_, hmu⟩
    rw [hs]
    intro e
    exact hne (Option.some.inj e)
  exact ⟨hreq, Default_pod_eq env pod, status_after_required env pod hreq,
    containers_after_required env pod hreq, volumes_after_required env pod hreq,
    by decide, rfl⟩

/-- Witness for C16: a pod in namespace `default` whose status key is `MUTATED`. -/
theorem other_status_value_is_not_marker_witness :
    (GoMap.lookup sampleEnv.AdmissionWebhookAnnotationStatusKey
        ((samplePodAt "default" (some [("lxcfs-webhook/status", "MUTATED")])).Annotations.getD
          []) = some "MUTATED" ∧ "MUTATED" ≠ "mutated") ∧
    mutationRequired sampleEnv
        (samplePodAt "default" (some [("lxcfs-webhook/status", "MUTATED")])) = true ∧
    GoMap.lookup sampleEnv.AdmissionWebhookAnnotationStatusKey
        ((podAfterDefault sampleEnv
          (samplePodAt "default" (some [("lxcfs-webhook/status", "MUTATED")]))).Annotations.getD
          []) = some "mutated" :=
  ⟨⟨by decide, by decide⟩,
    (other_status_value_is_not_marker sampleEnv _ "MUTATED" (by decide) (by decide) (by decide)
      (by intro v h; simp [samplePodAt, samplePod, sampleEnv, GoMap.lookup] at h)).1,
    (other_status_value_is_not_marker sampleEnv _ "MUTATED" (by decide) (by decide) (by decide)
      (by intro v h; simp [samplePodAt, samplePod, sampleEnv, GoMap.lookup] at h)).2.2.1⟩

theorem validateSt_eq (env : Env) (pod : Pod) :
    validateSt env pod = (pod, validate env pod) := by
  unfold validateSt validate annotationsOrEmpty
  cases pod.Annotations with
  | none => rfl
  | some m =>
    cases hl : GoMap.lookup env.AdmissionWebhookAnnotationMutateKey m with
    | none => simp only [hl]
    | some v =>
      simp only [hl]
      split <;> rfl

/-- C17: for every pod (and every old object), the pod is exactly the same after
`ValidateCreate`, `ValidateUpdate` and `ValidateDelete` as before, whether the call returns an
error or not; the old object of `ValidateUpdate` is unchanged too, a nil annotation map is
still nil, and the threaded calls return the results of the plain ones. -/
theorem validators_leave_pod_unchanged (env : Env) (pod : Pod) (oldObj : Object) :
    (validateSt env pod).1 = pod ∧
    (ValidateCreateSt env (.pod pod)).1 = .pod pod ∧
    (ValidateUpdateSt env oldObj (.pod pod)).1 = (oldObj, .pod pod) ∧
    (ValidateDeleteSt env (.pod pod)).1 = .pod pod ∧
    (validateSt env { pod with Annotations := none }).1.Annotations = none ∧
    (validateSt env pod).2 = validate env pod ∧
    (ValidateCreateSt env (.pod pod)).2 = ValidateCreate env (.pod pod) ∧
    (ValidateUpdateSt env oldObj (.pod pod)).2 = ValidateUpdate env oldObj (.pod pod) ∧
    (ValidateDeleteSt env (.pod pod)).2 = ValidateDelete env (.pod pod) := by
  have h := validateSt_eq env pod
  refine ⟨?_, ?_, ?_, rfl, ?_, ?_, ?_, ?_, rfl⟩
  · rw [h]
  · simp only [ValidateCreateSt, h]
  · simp only [ValidateUpdateSt, h]
  · rw [validateSt_eq]
  · rw [h]
  · simp only [ValidateCreateSt, ValidateCreate, h]
  · simp only [ValidateUpdateSt, ValidateUpdate, h]

/-- C18: for every pod, the pod left by `Default` differs from the pod it was given if and only
if `mutationRequired` is true: an ineligible pod is returned as it was, and on an eligible pod
the status annotation, which was not `mutated`, is `mutated` afterwards, whatever the templates
and the containers are. -/
theorem Default_changes_iff_required (env : Env) (pod : Pod) :
    (podAfterDefault env pod ≠ pod ↔ mutationRequired env pod = true) ∧
    ((Default env (.pod pod)).1 ≠ .pod pod ↔ mutationRequired env pod = true) ∧
    (mutationRequired env pod = false → Default env (.pod pod) = (.pod pod, none)) ∧
    (mutationRequired env pod = true →
      GoMap.lookup env.AdmissionWebhookAnnotationStatusKey (pod.Annotations.getD []) ≠ some "mutated" ∧
      GoMap.lookup env.AdmissionWebhookAnnotationStatusKey ((podAfterDefault env pod).Annotations.getD []) = some "mutated") := by
  have hiff : podAfterDefault env pod ≠ pod ↔ mutationRequired env pod = true := by
    constructor
    · intro hne
      cases hreq : mutationRequired env pod
      · exact absurd (podAfterDefault_of_not_required env pod hreq) hne
      · rfl
    · intro hreq heq
      have h1 := status_after_required env pod hreq
      rw [heq] at h1
      exact ((mutationRequired_iff env pod).1 hreq).2.1 h1
  refine ⟨hiff, ?_, Default_of_not_required env pod, ?_⟩
  · rw [Default_pod_eq env pod, ← hiff]
    constructor
    · intro h e
      exact h (congrArg Object.pod e)
    · intro h e
      exact h (Object.pod.inj e)
  · intro hreq
    exact ⟨((mutationRequired_iff env pod).1 hreq).2.1, status_after_required env pod hreq⟩

/-- Witness for C18: with both templates empty, a pod without containers is still changed. -/
theorem Default_changes_iff_required_witness :
    mutationRequired emptyTemplateEnv barePod = true ∧
    podAfterDefault emptyTemplateEnv barePod ≠ barePod ∧
    GoMap.lookup emptyTemplateEnv.AdmissionWebhookAnnotationStatusKey
      ((podAfterDefault emptyTemplateEnv barePod).Annotations.getD []) = some "mutated" :=
  ⟨by decide, (Default_changes_iff_required emptyTemplateEnv barePod).1.2 (by decide),
    ((Default_changes_iff_required emptyTemplateEnv barePod).2.2.2 (by decide)).2⟩

/-- C19: for every eligible pod, `Default` leaves `InitContainers` and `EphemeralContainers`,
mount lists included, exactly as they were, while the template volumes are appended to the
volumes of the pod and the template mounts to the mounts of each entry of `Containers`. -/
theorem Default_skips_init_and_ephemeral (env : Env) (pod : Pod)
    (hreq : mutationRequired env pod = true) :
    Default env (.pod pod) = (.pod (podAfterDefault env pod), none) ∧
    (podAfterDefault env pod).Spec.InitContainers = pod.Spec.InitContainers ∧
    (podAfterDefault env pod).Spec.EphemeralContainers = pod.Spec.EphemeralContainers ∧
    (podAfterDefault env pod).Spec.Volumes =
      some (pod.Spec.Volumes.getD [] ++ env.VolumesTemplate) ∧
    (∀ (i : Nat) (c : Container), pod.Spec.Containers[i]? = some c →
      ∃ c' : Container, (podAfterDefault env pod).Spec.Containers[i]? = some c' ∧
        c'.VolumeMounts = some (c.VolumeMounts.getD [] ++ env.VolumeMountsTemplate)) := by
  refine ⟨Default_pod_eq env pod, ?_, ?_, volumes_after_required env pod hreq,
    containers_after_required env pod hreq⟩
  · rw [spec_after_required env pod hreq]
  · rw [spec_after_required env pod hreq]

/-- Witness for C19: a pod with an init, a regular and an ephemeral container; the init and
ephemeral containers keep their single mount while the pod gets the two template volumes. -/
theorem Default_skips_init_and_ephemeral_witness :
    mutationRequired sampleEnv initPod = true ∧
    (podAfterDefault sampleEnv initPod).Spec.InitContainers = initPod.Spec.InitContainers ∧
    (podAfterDefault sampleEnv initPod).Spec.EphemeralContainers =
      initPod.Spec.EphemeralContainers ∧
    (podAfterDefault sampleEnv initPod).Spec.Volumes = some sampleEnv.VolumesTemplate :=
  ⟨by decide, (Default_skips_init_and_ephemeral sampleEnv initPod (by decide)).2.1,
    (Default_skips_init_and_ephemeral sampleEnv initPod (by decide)).2.2.1,
    (Default_skips_init_and_ephemeral sampleEnv initPod (by decide)).2.2.2.1⟩

end PodWebhook
